import Mathlib

/-! Verification development for the Online-Selling-Tracker dashboard
(order/inventory tracking single-page application).

The definitions below are a shallow embedding of the TypeScript source:
JavaScript numbers that can be `NaN` are modelled as `Option ℚ` (`none`
standing for a non-finite result), nullable/optional string fields as
`Option String`, and the remote gateway's fallible calls as `Except`
values parameterised by the outcome of the remote operation.
-/

namespace OST

/-- A JavaScript value as it may arrive in a numeric field from the data
layer: an actual number, `NaN`, `null`, `undefined`, or a string. -/
inductive JsVal where
  | num (q : ℚ)
  | nan
  | null
  | undef
  | str (s : String)
deriving Repr, DecidableEq

/-- A JavaScript number: `some q` is a finite value, `none` stands for a
non-finite result (`NaN`). -/
abbrev JsNum := Option ℚ

/-- NaN-propagating addition. -/
def nadd : JsNum → JsNum → JsNum
  | some a, some b => some (a + b)
  | _, _ => none

/-- NaN-propagating subtraction. -/
def nsub : JsNum → JsNum → JsNum
  | some a, some b => some (a - b)
  | _, _ => none

/-- NaN-propagating multiplication. -/
def nmul : JsNum → JsNum → JsNum
  | some a, some b => some (a * b)
  | _, _ => none

/-- NaN-propagating division; division by zero is non-finite in the sense
that it never occurs on the guarded paths of this program, so it is
collapsed into `none` here as well. -/
def ndiv : JsNum → JsNum → JsNum
  | some a, some b => if b = 0 then none else some (a / b)
  | _, _ => none

/-- Value of a list of decimal digit characters. -/
def digitsToNat (l : List Char) : Nat :=
  l.foldl (fun n c => n * 10 + (c.toNat - 48)) 0

/-- All characters are decimal digits. -/
def allDigits (l : List Char) : Bool :=
  l.all (fun c => c.isDigit)

/-- Split a character list at the first dot, if any. -/
def splitAtDot (l : List Char) : List Char × Option (List Char) :=
  match l.span (fun c => c != '.') with
  | (a, []) => (a, none)
  | (a, _ :: b) => (a, some b)

/-- JavaScript `s.trim()`: strip whitespace from both ends (spelled out
on the character list so that it evaluates by kernel reduction). -/
def strTrim (s : String) : String :=
  ⟨((s.data.dropWhile (fun c => c.isWhitespace)).reverse.dropWhile
      (fun c => c.isWhitespace)).reverse⟩

/-- ASCII lower-casing of one character, as `toLowerCase()` acts on the
ASCII SKUs this program stores. -/
def lowerChar (c : Char) : Char :=
  if 'A' ≤ c ∧ c ≤ 'Z' then Char.ofNat (c.toNat + 32) else c

/-- JavaScript `s.toLowerCase()` restricted to ASCII data. -/
def strToLower (s : String) : String :=
  ⟨s.data.map lowerChar⟩

/-- JavaScript `s.substring(0, n)` on ASCII data (UTF-16 units coincide
with characters there). -/
def strTake (s : String) (n : Nat) : String :=
  ⟨s.data.take n⟩

/-- Parse an unsigned decimal numeral (`"12"`, `"12.5"`, `".5"`, `"12."`).
Exponent and hexadecimal forms of JavaScript numerals are outside the data
this program stores and are not modelled. -/
def parseUnsigned (l : List Char) : Option ℚ :=
  match splitAtDot l with
  | (ip, none) =>
      if ip ≠ [] ∧ allDigits ip then some (digitsToNat ip : ℚ) else none
  | (ip, some fp) =>
      if (ip ≠ [] ∨ fp ≠ []) ∧ allDigits ip ∧ allDigits fp then
        some ((digitsToNat ip : ℚ) + (digitsToNat fp : ℚ) / (10 ^ fp.length))
      else none

/-- Model of `Number(s)` on a string: trimmed; empty coerces to `0`; otherwise an
optionally signed decimal numeral, and anything else is `NaN` (`none`). -/
def jsStringToNumber (s : String) : Option ℚ :=
  let t := strTrim s
  if t = "" then some 0
  else
    match t.data with
    | '-' :: rest => (parseUnsigned rest).map (fun q => -q)
    | '+' :: rest => parseUnsigned rest
    | l => parseUnsigned l

/-- JavaScript `Number(v)` coercion; `none` is `NaN`. -/
def jsToNumber : JsVal → Option ℚ
  | .num q => some q
  | .nan => none
  | .null => some 0
  | .undef => none
  | .str s => jsStringToNumber s

/-- JavaScript `Number(v) || 0`: `NaN` (and `0` itself) fall back to `0`,
so the result is always a finite number. -/
def numOr0 (v : JsVal) : ℚ :=
  (jsToNumber v).getD 0

/-- One sales order, as in `types.ts`; numeric fields are kept as raw
JavaScript values because the data layer may deliver strings or nulls. -/
structure Order where
  id : String
  user_id : Option String := none
  date : String := ""
  productId : String := ""
  productName : String := ""
  category : String := ""
  listingPrice : JsVal := .num 0
  settledAmount : JsVal := .num 0
  profit : JsVal := .num 0
  status : String := ""
  returnType : Option String := none
  lossAmount : JsVal := .undef
  claimStatus : Option String := none
deriving Repr, DecidableEq

/-- Orders with `status === 'Settled'` (`App.tsx` stats). -/
def settledOrders (orders : List Order) : List Order :=
  orders.filter (fun o => o.status == "Settled")

/-- Embedding of `settledOrders.reduce((sum, o) => sum + (Number(o.settledAmount) || 0), 0)`. -/
def revenueOf (orders : List Order) : JsNum :=
  (settledOrders orders).foldl (fun s o => nadd s (some (numOr0 o.settledAmount))) (some 0)

/-- Embedding of `settledOrders.reduce((sum, o) => sum + (Number(o.profit) || 0), 0)`. -/
def totalSettledProfit (orders : List Order) : JsNum :=
  (settledOrders orders).foldl (fun s o => nadd s (some (numOr0 o.profit))) (some 0)

/-- Embedding of `activeReturnLosses` of the first `App` variant (`App.tsx` lines 76-85):
filter `status === 'Returned'`, then add `lossAmount` only when
`returnType === 'Customer'` and `claimStatus !== 'Approved'`. -/
def activeReturnLossesV1 (orders : List Order) : JsNum :=
  (orders.filter (fun o => o.status == "Returned")).foldl
    (fun s o =>
      if o.returnType == some "Customer" && o.claimStatus != some "Approved" then
        nadd s (some (numOr0 o.lossAmount))
      else s)
    (some 0)

/-- Embedding of `activeReturnLosses` of the second `App` variant (`App.tsx` line 616):
filter `status === 'Returned' && claimStatus !== 'Approved'` — no
`returnType` condition — and add `lossAmount`. -/
def activeReturnLossesV2 (orders : List Order) : JsNum :=
  (orders.filter (fun o => o.status == "Returned" && o.claimStatus != some "Approved")).foldl
    (fun s o => nadd s (some (numOr0 o.lossAmount)))
    (some 0)

/-- Test `rev > 0` on a JavaScript number; comparison with `NaN` is false. -/
def jsGtZero : JsNum → Bool
  | some q => decide (0 < q)
  | none => false

/-- Embedding of `revenue > 0 ? (netProfit / revenue) * 100 : 0`. -/
def marginOf (net rev : JsNum) : JsNum :=
  if jsGtZero rev then nmul (ndiv net rev) (some 100) else some 0

/-- Dashboard statistics record returned by the `stats` memo. -/
structure Stats where
  totalRevenue : JsNum
  totalProfit : JsNum
  avgMargin : JsNum
  orderCount : Nat
deriving Repr, DecidableEq

/-- The `stats` memo of the first `App` variant (`App.tsx` lines 71-92). -/
def statsV1 (orders : List Order) : Stats :=
  { totalRevenue := revenueOf orders
    totalProfit := nsub (totalSettledProfit orders) (activeReturnLossesV1 orders)
    avgMargin := marginOf (nsub (totalSettledProfit orders) (activeReturnLossesV1 orders))
      (revenueOf orders)
    orderCount := orders.length }

/-- The `stats` memo of the second `App` variant (`App.tsx` lines 612-619). -/
def statsV2 (orders : List Order) : Stats :=
  { totalRevenue := revenueOf orders
    totalProfit := nsub (totalSettledProfit orders) (activeReturnLossesV2 orders)
    avgMargin := marginOf (nsub (totalSettledProfit orders) (activeReturnLossesV2 orders))
      (revenueOf orders)
    orderCount := orders.length }

/-- The spec's rule: `activeReturnLoss = Σ lossAmount` over orders with
`status == "Returned" AND returnType == "Customer" AND claimStatus != "Approved"`. -/
def specActiveReturnLoss (orders : List Order) : ℚ :=
  ((orders.filter
      (fun o => o.status == "Returned" && o.returnType == some "Customer"
        && o.claimStatus != some "Approved")).map
    (fun o => numOr0 o.lossAmount)).sum

/-- Loss rule actually implemented by the second variant: every `Returned`
order with a claim not `Approved` contributes, regardless of `returnType`. -/
def returnLossNoTypeFilter (orders : List Order) : ℚ :=
  ((orders.filter
      (fun o => o.status == "Returned" && o.claimStatus != some "Approved")).map
    (fun o => numOr0 o.lossAmount)).sum

/-- The spec's revenue rule: `Σ settledAmount` over orders with
`status == "Settled"`, everything else contributing zero. -/
def specSettledRevenue (orders : List Order) : ℚ :=
  ((orders.filter (fun o => o.status == "Settled")).map
    (fun o => numOr0 o.settledAmount)).sum

/-- One bucket of the monthly trend series. -/
structure MonthBucket where
  month : String
  revenue : JsNum
  profit : JsNum
deriving Repr, DecidableEq

/-- Embedding of `if (!map[month]) map[month] = ...`:
create the bucket on first sight (records preserve insertion order). -/
def bucketUpsert (acc : List MonthBucket) (m : String) : List MonthBucket :=
  if acc.any (fun b => b.month == m) then acc
  else acc ++ [{ month := m, revenue := some 0, profit := some 0 }]

/-- Apply an update to the bucket of month `m` (months are unique keys). -/
def bucketUpdate (acc : List MonthBucket) (m : String)
    (f : MonthBucket → MonthBucket) : List MonthBucket :=
  acc.map (fun b => if b.month == m then f b else b)

/-- One iteration of the `orders.forEach` in the `monthlyData` memo
(`App.tsx` lines 94-107 and 621-630, which are identical): note the
accumulations use plain `Number(x)` with no `|| 0` fallback. -/
def monthStep (acc : List MonthBucket) (o : Order) : List MonthBucket :=
  if o.status == "Settled" then
    bucketUpdate (bucketUpsert acc (strTake o.date 7)) (strTake o.date 7) (fun b =>
      { b with revenue := nadd b.revenue (jsToNumber o.settledAmount)
               profit := nadd b.profit (jsToNumber o.profit) })
  else if o.status == "Returned" && o.claimStatus != some "Approved" then
    bucketUpdate (bucketUpsert acc (strTake o.date 7)) (strTake o.date 7) (fun b =>
      { b with profit := nsub b.profit (jsToNumber o.lossAmount) })
  else bucketUpsert acc (strTake o.date 7)

/-- Insert a bucket into a list sorted ascending by month. -/
def insertBucket (b : MonthBucket) : List MonthBucket → List MonthBucket
  | [] => [b]
  | c :: t => if b.month < c.month then b :: c :: t else c :: insertBucket b t

/-- Sort buckets ascending by month (`sort((a, b) => a.month.localeCompare(b.month))`;
for ASCII `YYYY-MM` keys locale comparison is plain lexicographic order). -/
def sortBuckets : List MonthBucket → List MonthBucket
  | [] => []
  | b :: t => insertBucket b (sortBuckets t)

/-- The `monthlyData` memo: fold the orders into per-month buckets and sort
by month. -/
def monthlyData (orders : List Order) : List MonthBucket :=
  sortBuckets (orders.foldl monthStep [])

/-! ### Return/claim workflow (`App.tsx` modal and `updateOrderStatus`) -/

/-- JavaScript `v || d` on an optional string: `null`/`undefined` and the
empty string fall back to the default. -/
def jsStrOr (v : Option String) (d : String) : String :=
  match v with
  | some s => if s == "" then d else s
  | none => d

/-- The order placed into the return modal when a status change to
`'Returned'` is requested: `{ ...orderToUpdate, status: newStatus,
returnType: orderToUpdate.returnType || 'Courier',
claimStatus: orderToUpdate.claimStatus || 'Pending' }`. -/
def seedReturnOrder (o : Order) (newStatus : String) : Order :=
  { o with status := newStatus
           returnType := some (jsStrOr o.returnType "Courier")
           claimStatus := some (jsStrOr o.claimStatus "Pending") }

/-- The modal's Courier button: `{ ...order, returnType: 'Courier',
lossAmount: 0, claimStatus: 'None' }` (`App.tsx` lines 435 and 1071). -/
def selectCourier (o : Order) : Order :=
  { o with returnType := some "Courier"
           lossAmount := .num 0
           claimStatus := some "None" }

/-- The modal's Customer button: `{ ...order, returnType: 'Customer',
claimStatus: 'Pending' }` (`App.tsx` lines 436 and 1072). -/
def selectCustomer (o : Order) : Order :=
  { o with returnType := some "Customer"
           claimStatus := some "Pending" }

/-- Result of one `updateOrderStatus` call: the new in-memory order list,
the value handed to `setReturnModalOrder` (if called), and the orders
passed to the gateway's `updateOrder` (the persistence calls issued). -/
structure StatusChangeResult where
  orders : List Order
  modal : Option Order
  persisted : List Order
deriving Repr, DecidableEq

/-- Embedding of `updateOrderStatus` (`App.tsx` lines 136-149 and 665-672, identical):
an unknown id is a no-op; `'Returned'` only opens the pre-seeded modal;
any other status is persisted and applied to the list. -/
def updateOrderStatus (orders : List Order) (orderId newStatus : String) :
    StatusChangeResult :=
  match orders.find? (fun o => o.id == orderId) with
  | none => ⟨orders, none, []⟩
  | some o =>
    if newStatus == "Returned" then
      ⟨orders, some (seedReturnOrder o newStatus), []⟩
    else
      let u := { o with status := newStatus }
      ⟨orders.map (fun x => if x.id == orderId then u else x), none, [u]⟩

/-- Local state touched by `handleReturnDetailSubmit`. -/
structure SubmitState where
  orders : List Order
  modal : Option Order
deriving Repr, DecidableEq

/-- Embedding of `handleReturnDetailSubmit` (`App.tsx` lines 151-158): `setOrders` and
`setReturnModalOrder(null)` run only after `await dbService.updateOrder`
resolves; if it rejects, neither state update is reached. `gatewayOk`
is the outcome of the awaited call. -/
def handleReturnDetailSubmit (orders : List Order) (modal : Option Order)
    (details : Order) (gatewayOk : Bool) : SubmitState :=
  if gatewayOk then
    ⟨orders.map (fun o => if o.id == details.id then details else o), none⟩
  else
    ⟨orders, modal⟩

/-- The inline claim-status editor of the returned-orders tab
(`part_002` lines 623-627): `setOrders` runs before
`await dbService.updateOrder`, so the local list is updated no matter how
the persistence call turns out — the gateway outcome is unused. -/
def inlineClaimStatusChange (orders : List Order) (targetId val : String)
    (_gatewayOk : Bool) : List Order :=
  orders.map (fun item =>
    if item.id == targetId then { item with claimStatus := some val } else item)

/-! ### Inventory form (`part_000` full form and `components/InventoryForm.tsx`) -/

/-- One stocked product, as in `types.ts`. -/
structure InventoryItem where
  id : String
  user_id : Option String := none
  name : String := ""
  category : String := ""
  sku : String := ""
  stockLevel : Int := 0
  unitCost : ℚ := 0
  retailPrice : ℚ := 0
  bankSettledAmount : ℚ := 0
  minStockLevel : Int := 0
deriving Repr, DecidableEq

/-- Longest prefix of decimal digits and the remainder. -/
def takeDigits (l : List Char) : List Char × List Char :=
  l.span (fun c => c.isDigit)

/-- Embedding of `parseInt(s) || 0`: trim, optional sign, longest digit prefix; if no
digit is found the `NaN` falls back to `0`. -/
def parseIntOr0 (s : String) : Int :=
  let t := (strTrim s).data
  let p : Int × List Char :=
    match t with
    | '-' :: r => (-1, r)
    | '+' :: r => (1, r)
    | r => (1, r)
  let ds := (takeDigits p.2).1
  if ds = [] then 0 else p.1 * (digitsToNat ds : Int)

/-- Embedding of `parseFloat(s) || 0`: trim, optional sign, longest `digits[.digits]`
prefix; if no digit is found the `NaN` falls back to `0`. -/
def parseFloatOr0 (s : String) : ℚ :=
  let t := (strTrim s).data
  let p : Bool × List Char :=
    match t with
    | '-' :: r => (true, r)
    | '+' :: r => (false, r)
    | r => (false, r)
  let ipRest := takeDigits p.2
  let fp : List Char :=
    match ipRest.2 with
    | '.' :: r => (takeDigits r).1
    | _ => []
  if ipRest.1 = [] ∧ fp = [] then 0
  else
    let mag : ℚ := (digitsToNat ipRest.1 : ℚ) + (digitsToNat fp : ℚ) / (10 ^ fp.length)
    if p.1 then -mag else mag

/-- The raw text fields of the inventory form. -/
structure InvFormData where
  name : String := ""
  category : String := ""
  sku : String := ""
  stockLevel : String := ""
  unitCost : String := ""
  retailPrice : String := ""
  bankSettledAmount : String := ""
  minStockLevel : String := "5"
deriving Repr, DecidableEq

/-- What a form submission does: an inline validation error (no gateway
call issued), or a persistence action (`onAdd`/`onUpdate`). -/
inductive SubmitOutcome where
  | rejected (msg : String)
  | add (item : InventoryItem)
  | update (item : InventoryItem)
deriving Repr, DecidableEq

/-- Whether the outcome is an inline rejection. -/
def isRejected : SubmitOutcome → Bool
  | .rejected _ => true
  | _ => false

/-- The duplicate-SKU test of the full form (`part_000` lines 420-424):
`inventory.some(item => item.sku.trim().toLowerCase() ===
formData.sku.trim().toLowerCase() && (!initialData || item.id !== initialData.id))`. -/
def skuDuplicate (inventory : List InventoryItem) (initialData : Option InventoryItem)
    (sku : String) : Bool :=
  inventory.any (fun item =>
    strToLower (strTrim item.sku) == strToLower (strTrim sku) &&
      (match initialData with
       | none => true
       | some d => item.id != d.id))

/-- Embedding of `handleSubmit` of the full inventory form (`part_000` lines 416-449):
the SKU check runs first and a duplicate is rejected with an inline error
before `onAdd`/`onUpdate` (and hence any gateway call) is reached.
`freshId` stands for the generated `INV-…` id of a new item. -/
def inventoryFormSubmit (inventory : List InventoryItem)
    (initialData : Option InventoryItem) (fd : InvFormData) (freshId : String) :
    SubmitOutcome :=
  if skuDuplicate inventory initialData fd.sku then
    .rejected ("The SKU ID " ++ fd.sku ++ " is already in use by another product. Please enter a unique SKU ID.")
  else
    let item : InventoryItem :=
      { id := match initialData with | some d => d.id | none => freshId
        name := fd.name
        category := fd.category
        sku := strTrim fd.sku
        stockLevel := parseIntOr0 fd.stockLevel
        unitCost := parseFloatOr0 fd.unitCost
        retailPrice := parseFloatOr0 fd.retailPrice
        bankSettledAmount := parseFloatOr0 fd.bankSettledAmount
        minStockLevel := parseIntOr0 fd.minStockLevel }
    match initialData with
    | some _ => .update item
    | none => .add item

/-- Embedding of `handleSubmit` of the add-only form in `components/InventoryForm.tsx`
(lines 23-38): no SKU validation of any kind — it always builds the item
and calls `onAdd`. -/
def simpleInventoryFormSubmit (fd : InvFormData) (freshId : String) : SubmitOutcome :=
  .add
    { id := freshId
      name := fd.name
      category := fd.category
      sku := fd.sku
      stockLevel := parseIntOr0 fd.stockLevel
      unitCost := parseFloatOr0 fd.unitCost
      retailPrice := parseFloatOr0 fd.retailPrice
      bankSettledAmount := parseFloatOr0 fd.bankSettledAmount
      minStockLevel := parseIntOr0 fd.minStockLevel }

/-! ### Remote data gateway (`services/dbService.ts` and `part_004`) -/

/-- A JavaScript `Error`-like object with `message` and optional `status`. -/
structure JsError where
  message : String
  status : Option Nat := none
deriving Repr, DecidableEq

/-- The transiency test of `retryFetch`:
`error.message === 'Failed to fetch' || error.status === 502`. -/
def isTransient (e : JsError) : Bool :=
  e.message == "Failed to fetch" || e.status == some 502

/-- Embedding of `dbService.retryFetch` (`dbService.ts` lines 24-34), with `fn`
modelled as a map from the attempt index to that attempt's outcome.
Returns the final outcome together with the list of back-off delays
actually slept, in order. Defaults are `retries = 3`, `delay = 1000`. -/
def retryFetch {α : Type} (fn : Nat → Except JsError α) :
    Nat → Nat → Nat → Except JsError α × List Nat
  | retries, delay, attempt =>
    match fn attempt with
    | .ok a => (.ok a, [])
    | .error e =>
      match retries with
      | 0 => (.error e, [])
      | Nat.succ r =>
        if isTransient e then
          let res := retryFetch fn r (delay * 2) (attempt + 1)
          (res.1, delay :: res.2)
        else (.error e, [])

/-- Whether `pat` occurs at the start of `hay`. -/
def charsStartWith : List Char → List Char → Bool
  | [], _ => true
  | _ :: _, [] => false
  | a :: as, b :: bs => a == b && charsStartWith as bs

/-- Recursive core of the substring test `hay.includes(pat)`. -/
def charsContain (pat : List Char) : List Char → Bool
  | [] => charsStartWith pat []
  | c :: t => charsStartWith pat (c :: t) || charsContain pat t

/-- JavaScript `hay.includes(pat)`. -/
def strContains (hay pat : String) : Bool :=
  charsContain pat.data hay.data

/-- Embedding of `dbService.getOrders` of the main variant (`dbService.ts` lines
173-186): unconfigured client or missing session return an empty list
successfully; a remote error is thrown as-is; otherwise the remote rows
are filtered to `user_id = caller` (the `.eq('user_id', user.id)` query;
the `order by date` directive is a remote concern and not modelled). -/
def getOrdersMain (configured : Bool) (session : Option String)
    (table : List Order) (queryError : Option String) : Except String (List Order) :=
  if !configured then .ok []
  else
    match session with
    | none => .ok []
    | some uid =>
      match queryError with
      | some msg => .error msg
      | none => .ok (table.filter (fun o => o.user_id == some uid))

/-- Embedding of `dbService.getOrders` of the `part_004` variant (lines 150-168): same
shape, but a remote error whose message contains `'user_id'` is rethrown
as the distinct `SCHEMA_MISSING_USER_ID` error. -/
def getOrdersPart004 (configured : Bool) (session : Option String)
    (table : List Order) (queryError : Option String) : Except String (List Order) :=
  if !configured then .ok []
  else
    match session with
    | none => .ok []
    | some uid =>
      match queryError with
      | some msg =>
        if strContains msg "user_id" then .error "SCHEMA_MISSING_USER_ID"
        else .error msg
      | none => .ok (table.filter (fun o => o.user_id == some uid))

/-- Embedding of `dbService.getInventory` of the main variant (`dbService.ts` lines
139-152). -/
def getInventoryMain (configured : Bool) (session : Option String)
    (table : List InventoryItem) (queryError : Option String) :
    Except String (List InventoryItem) :=
  if !configured then .ok []
  else
    match session with
    | none => .ok []
    | some uid =>
      match queryError with
      | some msg => .error msg
      | none => .ok (table.filter (fun i => i.user_id == some uid))

/-- Embedding of `dbService.getInventory` of the `part_004` variant (lines 90-109),
with the `SCHEMA_MISSING_USER_ID` detection. -/
def getInventoryPart004 (configured : Bool) (session : Option String)
    (table : List InventoryItem) (queryError : Option String) :
    Except String (List InventoryItem) :=
  if !configured then .ok []
  else
    match session with
    | none => .ok []
    | some uid =>
      match queryError with
      | some msg =>
        if strContains msg "user_id" then .error "SCHEMA_MISSING_USER_ID"
        else .error msg
      | none => .ok (table.filter (fun i => i.user_id == some uid))

/-! ### Helper lemmas about the reductions -/

theorem foldl_nadd_eq (f : Order → ℚ) (l : List Order) (init : ℚ) :
    l.foldl (fun s o => nadd s (some (f o))) (some init) = some (init + (l.map f).sum) := by
  induction l generalizing init with
  | nil => simp
  | cons a t ih =>
    have h1 : nadd (some init) (some (f a)) = some (init + f a) := rfl
    calc (a :: t).foldl (fun s o => nadd s (some (f o))) (some init)
        = t.foldl (fun s o => nadd s (some (f o))) (some (init + f a)) := by
          rw [List.foldl_cons, h1]
      _ = some (init + f a + (t.map f).sum) := ih (init + f a)
      _ = some (init + ((a :: t).map f).sum) := by
          rw [List.map_cons, List.sum_cons, add_assoc]

theorem foldl_nadd_if_eq (p : Order → Bool) (f : Order → ℚ) (l : List Order) (init : ℚ) :
    l.foldl (fun s o => if p o then nadd s (some (f o)) else s) (some init)
      = some (init + ((l.filter p).map f).sum) := by
  induction l generalizing init with
  | nil => simp
  | cons a t ih =>
    by_cases h : p a
    · have h1 : (if p a then nadd (some init) (some (f a)) else some init)
          = some (init + f a) := by rw [if_pos h]; rfl
      calc (a :: t).foldl (fun s o => if p o then nadd s (some (f o)) else s) (some init)
          = t.foldl (fun s o => if p o then nadd s (some (f o)) else s)
              (some (init + f a)) := by rw [List.foldl_cons, h1]
        _ = some (init + f a + ((t.filter p).map f).sum) := ih (init + f a)
        _ = some (init + (((a :: t).filter p).map f).sum) := by
            rw [List.filter_cons_of_pos h, List.map_cons, List.sum_cons, add_assoc]
    · have h1 : (if p a then nadd (some init) (some (f a)) else some init)
          = some init := by rw [if_neg (by simp [h])]
      calc (a :: t).foldl (fun s o => if p o then nadd s (some (f o)) else s) (some init)
          = t.foldl (fun s o => if p o then nadd s (some (f o)) else s) (some init) := by
            rw [List.foldl_cons, h1]
        _ = some (init + ((t.filter p).map f).sum) := ih init
        _ = some (init + (((a :: t).filter p).map f).sum) := by
            rw [List.filter_cons_of_neg (by simp [h])]

theorem filter_filter_assoc (r p : Order → Bool) (l : List Order) :
    (l.filter r).filter p = l.filter (fun o => r o && p o) := by
  induction l with
  | nil => rfl
  | cons a t ih =>
    by_cases hr : r a <;> by_cases hp : p a <;>
      simp [List.filter_cons, hr, hp, ih]

theorem revenueOf_eq (l : List Order) :
    revenueOf l = some (specSettledRevenue l) := by
  unfold revenueOf specSettledRevenue settledOrders
  rw [foldl_nadd_eq]
  simp

theorem totalSettledProfit_eq (l : List Order) :
    totalSettledProfit l = some (((settledOrders l).map (fun o => numOr0 o.profit)).sum) := by
  unfold totalSettledProfit
  rw [foldl_nadd_eq]
  simp

theorem activeReturnLossesV1_eq (l : List Order) :
    activeReturnLossesV1 l = some (specActiveReturnLoss l) := by
  unfold activeReturnLossesV1 specActiveReturnLoss
  rw [foldl_nadd_if_eq, filter_filter_assoc]
  simp [Bool.and_assoc]

theorem activeReturnLossesV2_eq (l : List Order) :
    activeReturnLossesV2 l = some (returnLossNoTypeFilter l) := by
  unfold activeReturnLossesV2 returnLossNoTypeFilter
  rw [foldl_nadd_eq]
  simp

/-! ### Claim theorems -/

/-- C2 (confirmed): for every list of orders, the dashboard's
`totalRevenue` (both `App` variants) equals the sum of `settledAmount`
over exactly the orders whose status is `"Settled"`, and appending an
order in any other status leaves the revenue unchanged regardless of its
own `settledAmount`. -/
theorem settledRevenue_isolation (orders : List Order) :
    revenueOf orders = some (specSettledRevenue orders)
    ∧ (statsV1 orders).totalRevenue = some (specSettledRevenue orders)
    ∧ (statsV2 orders).totalRevenue = some (specSettledRevenue orders)
    ∧ ∀ o : Order, o.status ≠ "Settled" →
        revenueOf (orders ++ [o]) = revenueOf orders := by
  refine ⟨revenueOf_eq orders, revenueOf_eq orders, revenueOf_eq orders, ?_⟩
  intro o ho
  rw [revenueOf_eq, revenueOf_eq]
  unfold specSettledRevenue
  simp [List.filter_append, List.filter_cons, ho]

/-- Witness for `settledRevenue_isolation`: appending a `"Pending"` order
with `settledAmount = 200` to a list with a single settled order leaves
the revenue untouched. -/
theorem settledRevenue_isolation_witness :
    ({ id := "B", status := "Pending", settledAmount := .num 200 } : Order).status ≠ "Settled"
    ∧ revenueOf
        ([{ id := "A", status := "Settled", settledAmount := .num 180, profit := .num 60 }] ++
          [{ id := "B", status := "Pending", settledAmount := .num 200 }])
      = revenueOf [{ id := "A", status := "Settled", settledAmount := .num 180, profit := .num 60 }] :=
  ⟨by decide,
    (settledRevenue_isolation
        [{ id := "A", status := "Settled", settledAmount := .num 180, profit := .num 60 }]).2.2.2
      { id := "B", status := "Pending", settledAmount := .num 200 } (by decide)⟩

/-- Counterexample to C1 as stated: a `Returned` order with
`returnType = 'Courier'`, a stored `lossAmount` of 50 and a claim that is
not approved contributes 50 to the second `App` variant's
`activeReturnLosses`, while the claimed rule (loss only from `Customer`
returns) yields 0. -/
theorem activeReturnLoss_counterexample :
    activeReturnLossesV2
        [{ id := "C", status := "Returned", returnType := some "Courier",
           lossAmount := .num 50, claimStatus := some "Pending" }]
      = some 50
    ∧ specActiveReturnLoss
        [{ id := "C", status := "Returned", returnType := some "Courier",
           lossAmount := .num 50, claimStatus := some "Pending" }]
      = 0
    ∧ (statsV2
        [{ id := "C", status := "Returned", returnType := some "Courier",
           lossAmount := .num 50, claimStatus := some "Pending" }]).totalProfit
      = some (-50) := by
  refine ⟨?_, ?_, ?_⟩
  · rw [activeReturnLossesV2_eq]
    simp [returnLossNoTypeFilter, List.filter_cons, numOr0, jsToNumber]
  · simp [specActiveReturnLoss, List.filter_cons]
  · simp only [statsV2]
    rw [totalSettledProfit_eq, activeReturnLossesV2_eq]
    simp [settledOrders, returnLossNoTypeFilter, List.filter_cons, numOr0, jsToNumber, nsub]

/-- C1 (amended): the first `App` variant's `activeReturnLosses` is the
sum of `lossAmount` over orders with `status = "Returned"`,
`returnType = "Customer"` and `claimStatus ≠ "Approved"` — so a Courier
return never contributes there — but the second variant omits the
`returnType` filter and charges every non-approved `Returned` order's
`lossAmount`, Courier returns included. In both variants `netProfit`
equals the gross settled profit minus that variant's active return loss. -/
theorem activeReturnLoss_amended (orders : List Order) :
    activeReturnLossesV1 orders = some (specActiveReturnLoss orders)
    ∧ activeReturnLossesV2 orders = some (returnLossNoTypeFilter orders)
    ∧ (statsV1 orders).totalProfit
        = nsub (totalSettledProfit orders) (activeReturnLossesV1 orders)
    ∧ (statsV2 orders).totalProfit
        = nsub (totalSettledProfit orders) (activeReturnLossesV2 orders) :=
  ⟨activeReturnLossesV1_eq orders, activeReturnLossesV2_eq orders, rfl, rfl⟩

/-- Counterexample to C4 as stated: on an order whose `claimStatus` is
already `'Approved'` (something other than `'None'`), the claim requires
the Customer button to keep `'Approved'`, but the handler
unconditionally writes `'Pending'`. -/
theorem customerSelect_counterexample :
    (selectCustomer
        { id := "X", status := "Returned", returnType := some "Courier",
          claimStatus := some "Approved" }).claimStatus = some "Pending"
    ∧ (some "Pending" : Option String) ≠ some "Approved" := by
  exact ⟨rfl, by decide⟩

/-- C4 (amended): the Courier button sets `returnType = 'Courier'`, resets
`lossAmount` to `0` and sets `claimStatus = 'None'`, leaving every other
field unchanged; the Customer button sets `returnType = 'Customer'` and
always sets `claimStatus = 'Pending'`, regardless of any previous claim
status, leaving every other field (including `lossAmount`) unchanged. -/
theorem returnModal_type_selection (o : Order) :
    (selectCourier o).returnType = some "Courier"
    ∧ (selectCourier o).lossAmount = JsVal.num 0
    ∧ (selectCourier o).claimStatus = some "None"
    ∧ (selectCourier o).id = o.id
    ∧ (selectCourier o).status = o.status
    ∧ (selectCourier o).settledAmount = o.settledAmount
    ∧ (selectCourier o).profit = o.profit
    ∧ (selectCourier o).date = o.date
    ∧ (selectCustomer o).returnType = some "Customer"
    ∧ (selectCustomer o).claimStatus = some "Pending"
    ∧ (selectCustomer o).lossAmount = o.lossAmount
    ∧ (selectCustomer o).id = o.id
    ∧ (selectCustomer o).status = o.status
    ∧ (selectCustomer o).settledAmount = o.settledAmount
    ∧ (selectCustomer o).profit = o.profit := by
  repeat constructor

/-! Shared facts about `updateOrderStatus`, used by the C5 and C10
theorems. -/

theorem updateOrderStatus_found_returned (orders : List Order) (orderId : String)
    (o : Order) (hfind : orders.find? (fun x => x.id == orderId) = some o) :
    updateOrderStatus orders orderId "Returned"
      = ⟨orders, some (seedReturnOrder o "Returned"), []⟩ := by
  unfold updateOrderStatus
  rw [hfind]
  rfl

theorem updateOrderStatus_found_other (orders : List Order) (orderId : String)
    (o : Order) (s : String) (hfind : orders.find? (fun x => x.id == orderId) = some o)
    (hs : s ≠ "Returned") :
    updateOrderStatus orders orderId s
      = ⟨orders.map (fun x => if x.id == orderId then { o with status := s } else x),
          none, [{ o with status := s }]⟩ := by
  unfold updateOrderStatus
  rw [hfind]
  simp only [beq_iff_eq]
  rw [if_neg hs]

/-- C5 (confirmed): changing an existing order's status to `'Returned'`
issues no `updateOrder` call and leaves the order list untouched — it only
opens the return modal pre-seeded with the order's return fields
(`returnType` defaulting to `'Courier'` and `claimStatus` to `'Pending'`
when absent) — while any other status change immediately persists the
updated order and applies it to the list. -/
theorem returnedStatus_opens_modal (orders : List Order) (orderId : String)
    (o : Order) (hfind : orders.find? (fun x => x.id == orderId) = some o) :
    (updateOrderStatus orders orderId "Returned").orders = orders
    ∧ (updateOrderStatus orders orderId "Returned").persisted = []
    ∧ (updateOrderStatus orders orderId "Returned").modal
        = some (seedReturnOrder o "Returned")
    ∧ (seedReturnOrder o "Returned").returnType = some (jsStrOr o.returnType "Courier")
    ∧ (seedReturnOrder o "Returned").claimStatus = some (jsStrOr o.claimStatus "Pending")
    ∧ (seedReturnOrder o "Returned").lossAmount = o.lossAmount
    ∧ ∀ s : String, s ≠ "Returned" →
        updateOrderStatus orders orderId s
          = ⟨orders.map (fun x => if x.id == orderId then { o with status := s } else x),
              none, [{ o with status := s }]⟩ := by
  rw [updateOrderStatus_found_returned orders orderId o hfind]
  exact ⟨rfl, rfl, rfl, rfl, rfl, rfl,
    fun s hs => updateOrderStatus_found_other orders orderId o s hfind hs⟩

/-- Witness for `returnedStatus_opens_modal` at a concrete one-order list:
the `'Returned'` transition leaves the list alone and persists nothing;
the `'Settled'` transition persists the order with only the status
changed. -/
theorem returnedStatus_opens_modal_witness :
    (updateOrderStatus [{ id := "W", status := "Shipped", lossAmount := .num 7 }] "W"
        "Returned").orders = [{ id := "W", status := "Shipped", lossAmount := .num 7 }]
    ∧ ("Settled" : String) ≠ "Returned"
    ∧ updateOrderStatus [{ id := "W", status := "Shipped", lossAmount := .num 7 }] "W"
        "Settled"
      = ⟨[{ id := "W", status := "Settled", lossAmount := .num 7 }], none,
          [{ id := "W", status := "Settled", lossAmount := .num 7 }]⟩ := by
  refine ⟨(returnedStatus_opens_modal
      [{ id := "W", status := "Shipped", lossAmount := .num 7 }] "W"
      { id := "W", status := "Shipped", lossAmount := .num 7 } (by decide)).1,
    by decide, ?_⟩
  have h := (returnedStatus_opens_modal
      [{ id := "W", status := "Shipped", lossAmount := .num 7 }] "W"
      { id := "W", status := "Shipped", lossAmount := .num 7 } (by decide)).2.2.2.2.2.2
      "Settled" (by decide)
  rw [h]
  decide

/-- C10 (confirmed): a status change to anything but `'Returned'` persists
and stores `{ ...order, status: newStatus }` — only the status field
differs, and in particular `profit` and `settledAmount` are carried over
verbatim, never recomputed. -/
theorem statusChange_frame (orders : List Order) (orderId : String) (o : Order)
    (s : String) (hfind : orders.find? (fun x => x.id == orderId) = some o)
    (hs : s ≠ "Returned") :
    updateOrderStatus orders orderId s
      = ⟨orders.map (fun x => if x.id == orderId then { o with status := s } else x),
          none, [{ o with status := s }]⟩
    ∧ ({ o with status := s } : Order).status = s
    ∧ ({ o with status := s } : Order).profit = o.profit
    ∧ ({ o with status := s } : Order).settledAmount = o.settledAmount
    ∧ ({ o with status := s } : Order).id = o.id
    ∧ ({ o with status := s } : Order).user_id = o.user_id
    ∧ ({ o with status := s } : Order).date = o.date
    ∧ ({ o with status := s } : Order).productId = o.productId
    ∧ ({ o with status := s } : Order).productName = o.productName
    ∧ ({ o with status := s } : Order).category = o.category
    ∧ ({ o with status := s } : Order).listingPrice = o.listingPrice
    ∧ ({ o with status := s } : Order).returnType = o.returnType
    ∧ ({ o with status := s } : Order).lossAmount = o.lossAmount
    ∧ ({ o with status := s } : Order).claimStatus = o.claimStatus := by
  refine ⟨updateOrderStatus_found_other orders orderId o s hfind hs, ?_⟩
  repeat constructor

/-- Witness for `statusChange_frame`: switching a concrete order to
`'Settled'` keeps its `profit` and `settledAmount` bit-for-bit. -/
theorem statusChange_frame_witness :
    updateOrderStatus
        [{ id := "F", status := "Shipped", settledAmount := .num 180, profit := .num 60 }]
        "F" "Settled"
      = ⟨[{ id := "F", status := "Settled", settledAmount := .num 180, profit := .num 60 }],
          none,
          [{ id := "F", status := "Settled", settledAmount := .num 180, profit := .num 60 }]⟩
    ∧ ({ ({ id := "F", status := "Shipped", settledAmount := .num 180,
            profit := .num 60 } : Order)
          with status := "Settled" }).profit = JsVal.num 60 := by
  have h := statusChange_frame
      [{ id := "F", status := "Shipped", settledAmount := .num 180, profit := .num 60 }]
      "F" { id := "F", status := "Shipped", settledAmount := .num 180, profit := .num 60 }
      "Settled" (by decide) (by decide)
  refine ⟨?_, h.2.2.1⟩
  rw [h.1]
  decide

/-- Counterexample to C6 as stated: in the returned-tab inline editor the
local list is changed even when the gateway call fails (`gatewayOk =
false`), so a failed persist does leave local state diverged. -/
theorem inlineClaimUpdate_counterexample :
    inlineClaimStatusChange
        [{ id := "R", status := "Returned", returnType := some "Customer",
           claimStatus := some "Pending" }] "R" "Approved" false
      = [{ id := "R", status := "Returned", returnType := some "Customer",
           claimStatus := some "Approved" }]
    ∧ inlineClaimStatusChange
        [{ id := "R", status := "Returned", returnType := some "Customer",
           claimStatus := some "Pending" }] "R" "Approved" false
      ≠ [{ id := "R", status := "Returned", returnType := some "Customer",
           claimStatus := some "Pending" }] := by
  exact ⟨by decide, by decide⟩

/-- C6 (amended): the modal submit path (`handleReturnDetailSubmit`)
applies the edit to the local list only after `updateOrder` succeeds — a
rejected persist leaves both the list and the open modal untouched — but
the inline return-field editors of the `part_002` variant update the
local list before awaiting `updateOrder` and produce the same new list
whether the persist succeeds or fails, with no rollback. -/
theorem returnEdit_failure_semantics (orders : List Order) (modal : Option Order)
    (details : Order) :
    handleReturnDetailSubmit orders modal details false = ⟨orders, modal⟩
    ∧ handleReturnDetailSubmit orders modal details true
        = ⟨orders.map (fun o => if o.id == details.id then details else o), none⟩
    ∧ ∀ targetId val : String,
        inlineClaimStatusChange orders targetId val false
          = inlineClaimStatusChange orders targetId val true :=
  ⟨rfl, rfl, fun _ _ => rfl⟩

/-- The sequence of back-off delays slept by `retryFetch` is always an
initial segment of the doubling sequence `delay, 2·delay, 4·delay, …`,
with at most `retries` entries. -/
theorem retryFetch_delays {α : Type} (fn : Nat → Except JsError α) :
    ∀ (retries delay attempt : Nat), ∃ k, k ≤ retries ∧
      (retryFetch fn retries delay attempt).2
        = (List.range k).map (fun i => delay * 2 ^ i) := by
  intro retries
  induction retries with
  | zero =>
    intro delay attempt
    refine ⟨0, Nat.le_refl 0, ?_⟩
    cases h : fn attempt <;> (rw [retryFetch, h]; rfl)
  | succ r ih =>
    intro delay attempt
    cases h : fn attempt with
    | ok a => exact ⟨0, Nat.zero_le _, by rw [retryFetch, h]; rfl⟩
    | error e =>
      by_cases ht : isTransient e = true
      · obtain ⟨k, hk, heq⟩ := ih (delay * 2) (attempt + 1)
        refine ⟨k + 1, Nat.succ_le_succ hk, ?_⟩
        have hstep : (retryFetch fn (r + 1) delay attempt).2
            = delay :: (retryFetch fn r (delay * 2) (attempt + 1)).2 := by
          rw [retryFetch, h]
          simp [ht]
        rw [hstep, heq, List.range_succ_eq_map, List.map_cons, List.map_map]
        refine congrArg₂ _ (by ring) ?_
        refine List.map_congr_left ?_
        intro i _
        show delay * 2 * 2 ^ i = delay * 2 ^ (i + 1)
        ring
      · refine ⟨0, Nat.zero_le _, ?_⟩
        rw [retryFetch, h]
        simp [ht]

/-- Prepending `delay` to the doubled sequence starting at `2·delay`
yields the doubling sequence starting at `delay`, one entry longer. -/
theorem doubling_cons (delay k : Nat) :
    delay :: (List.range k).map (fun i => delay * 2 * 2 ^ i)
      = (List.range (k + 1)).map (fun i => delay * 2 ^ i) := by
  rw [List.range_succ_eq_map, List.map_cons, List.map_map]
  refine congrArg₂ _ (by ring) (List.map_congr_left ?_)
  intro i _
  show delay * 2 * 2 ^ i = delay * 2 ^ (i + 1)
  ring

/-- A transient failure with retry budget left triggers a retry: the
helper sleeps `delay` and re-runs with the budget decremented, the delay
doubled and the next attempt of `fn`. -/
theorem retryFetch_retries_on_transient {α : Type} (fn : Nat → Except JsError α)
    (r delay attempt : Nat) (e : JsError) (ht : isTransient e = true)
    (h0 : fn attempt = Except.error e) :
    retryFetch fn (r + 1) delay attempt
      = ((retryFetch fn r (delay * 2) (attempt + 1)).1,
          delay :: (retryFetch fn r (delay * 2) (attempt + 1)).2) := by
  rw [retryFetch, h0]
  simp [ht]

/-- When every attempt fails transiently, `retryFetch` performs exactly
`retries` retries, sleeping the full doubling sequence, then surfaces the
transient error. -/
theorem retryFetch_all_transient {α : Type} (fn : Nat → Except JsError α)
    (e : JsError) (ht : isTransient e = true)
    (hall : ∀ i, fn i = Except.error e) :
    ∀ (retries delay attempt : Nat),
      retryFetch fn retries delay attempt
        = (Except.error e, (List.range retries).map (fun i => delay * 2 ^ i)) := by
  intro retries
  induction retries with
  | zero =>
    intro delay attempt
    rw [retryFetch, hall attempt]
    rfl
  | succ r ih =>
    intro delay attempt
    rw [retryFetch_retries_on_transient fn r delay attempt e ht (hall attempt),
        ih (delay * 2) (attempt + 1)]
    exact congrArg (Prod.mk (Except.error e)) (doubling_cons delay r)

/-- C8 (confirmed): a transient first failure (`message === 'Failed to
fetch'` or `status === 502`) with retry budget left is retried — the
helper sleeps `delay` and re-invokes the operation with the delay doubled;
if the transient failure persists it is retried exactly `retries` times
(default 3) through the full doubling sequence and then surfaced, and a
transient failure followed by a success recovers after a single back-off
sleep; the slept delays always form an initial segment of the doubling
sequence `delay, 2·delay, …` with at most `retries` entries; and an error
that is not transient propagates unchanged on its first occurrence with no
retry at all. -/
theorem retryFetch_policy {α : Type} (fn : Nat → Except JsError α)
    (retries delay : Nat) :
    (∃ k, k ≤ retries ∧
      (retryFetch fn retries delay 0).2 = (List.range k).map (fun i => delay * 2 ^ i))
    ∧ (∀ e : JsError, isTransient e = true → fn 0 = Except.error e → 0 < retries →
        retryFetch fn retries delay 0
          = ((retryFetch fn (retries - 1) (delay * 2) 1).1,
              delay :: (retryFetch fn (retries - 1) (delay * 2) 1).2))
    ∧ (∀ e : JsError, isTransient e = true → (∀ i, fn i = Except.error e) →
        retryFetch fn retries delay 0
          = (Except.error e, (List.range retries).map (fun i => delay * 2 ^ i)))
    ∧ (∀ e : JsError, ∀ a : α, isTransient e = true → fn 0 = Except.error e →
        fn 1 = Except.ok a → 0 < retries →
        retryFetch fn retries delay 0 = (Except.ok a, [delay]))
    ∧ (∀ e : JsError, fn 0 = Except.error e → isTransient e = false →
        retryFetch fn retries delay 0 = (Except.error e, [])) := by
  refine ⟨retryFetch_delays fn retries delay 0, ?_, ?_, ?_, ?_⟩
  · intro e ht h0 hr
    cases retries with
    | zero => exact absurd hr (Nat.lt_irrefl 0)
    | succ r => exact retryFetch_retries_on_transient fn r delay 0 e ht h0
  · intro e ht hall
    exact retryFetch_all_transient fn e ht hall retries delay 0
  · intro e a ht h0 h1 hr
    cases retries with
    | zero => exact absurd hr (Nat.lt_irrefl 0)
    | succ r =>
      rw [retryFetch_retries_on_transient fn r delay 0 e ht h0, retryFetch, h1]
  · intro e he ht
    cases retries with
    | zero => rw [retryFetch, he]
    | succ r =>
      rw [retryFetch, he]
      simp [ht]

/-- Witness for `retryFetch_policy` at the default budget `retries = 3`,
`delay = 1000`: a `'Failed to fetch'` failure on the first attempt is
retried — when the second attempt succeeds the call recovers with the
single back-off sleep `[1000]`; when every attempt keeps failing
transiently the helper sleeps `[1000, 2000, 4000]` (three doubling
retries) and then surfaces the error; and a non-transient `"boom"` error
is returned immediately with no sleeps. -/
theorem retryFetch_policy_witness :
    isTransient { message := "Failed to fetch" } = true
    ∧ retryFetch
        (fun i => if i = 0 then (Except.error { message := "Failed to fetch" } :
            Except JsError Unit) else Except.ok ()) 3 1000 0
      = (Except.ok (), [1000])
    ∧ retryFetch
        (fun _ => (Except.error { message := "Failed to fetch" } : Except JsError Unit))
        3 1000 0
      = (Except.error { message := "Failed to fetch" }, [1000, 2000, 4000])
    ∧ isTransient { message := "boom" } = false
    ∧ retryFetch (fun _ => (Except.error { message := "boom" } : Except JsError Unit))
        3 1000 0
      = (Except.error { message := "boom" }, []) := by
  refine ⟨by decide, ?_, ?_, by decide, ?_⟩
  · exact (retryFetch_policy
        (fun i => if i = 0 then (Except.error { message := "Failed to fetch" } :
            Except JsError Unit) else Except.ok ()) 3 1000).2.2.2.1
      { message := "Failed to fetch" } () (by decide) rfl rfl (by decide)
  · have h := (retryFetch_policy
        (fun _ => (Except.error { message := "Failed to fetch" } : Except JsError Unit))
        3 1000).2.2.1 { message := "Failed to fetch" } (by decide) (fun _ => rfl)
    rw [h]
    exact congrArg
      (Prod.mk (Except.error ({ message := "Failed to fetch" } : JsError) :
        Except JsError Unit))
      (by decide : (List.range 3).map (fun i => 1000 * 2 ^ i) = [1000, 2000, 4000])
  · exact (retryFetch_policy
        (fun _ => (Except.error { message := "boom" } : Except JsError Unit))
        3 1000).2.2.2.2 { message := "boom" } rfl (by decide)

/-- The boolean duplicate test of the full form agrees with the spec's
description of a duplicate: some existing item — other than the one being
edited — whose trimmed SKU matches case-insensitively. -/
theorem skuDuplicate_iff (inventory : List InventoryItem)
    (initialData : Option InventoryItem) (sku : String) :
    skuDuplicate inventory initialData sku = true ↔
      ∃ item ∈ inventory, strToLower (strTrim item.sku) = strToLower (strTrim sku)
        ∧ ∀ d, initialData = some d → item.id ≠ d.id := by
  unfold skuDuplicate
  rw [List.any_eq_true]
  cases initialData with
  | none => simp
  | some d0 =>
    constructor
    · rintro ⟨item, hmem, hcond⟩
      rw [Bool.and_eq_true] at hcond
      refine ⟨item, hmem, by simpa using hcond.1, ?_⟩
      intro d hd
      cases hd
      simpa using hcond.2
    · rintro ⟨item, hmem, hsku, hid⟩
      refine ⟨item, hmem, ?_⟩
      rw [Bool.and_eq_true]
      exact ⟨by simpa using hsku, by simpa using hid d0 rfl⟩

/-- Counterexample to C7 as stated: the add-only form in
`components/InventoryForm.tsx` performs no SKU validation — with an
existing item of SKU `"ABC"` and an entered SKU `" abc"` (a trimmed,
case-insensitive duplicate), its submission is still an `onAdd`
persistence action and never an inline rejection. -/
theorem simpleForm_sku_counterexample :
    skuDuplicate [{ id := "I1", sku := "ABC", name := "Mug" }] none " abc" = true
    ∧ isRejected
        (simpleInventoryFormSubmit
          { name := "Mug 2", category := "Kitchen", sku := " abc" } "INV-1")
      = false := by
  exact ⟨by decide, rfl⟩

/-- C7 (amended): the full inventory form (`part_000`) rejects a
submission with an inline error — issuing no `onAdd`/`onUpdate`
persistence action — exactly when the entered SKU, trimmed and compared
case-insensitively, matches an existing item other than the one being
edited; but the add-only form in `components/InventoryForm.tsx` performs
no SKU check and always submits an `onAdd`. -/
theorem inventoryForm_sku_uniqueness (inventory : List InventoryItem)
    (initialData : Option InventoryItem) (fd : InvFormData) (freshId : String) :
    ((∃ item ∈ inventory, strToLower (strTrim item.sku) = strToLower (strTrim fd.sku)
        ∧ ∀ d, initialData = some d → item.id ≠ d.id) →
      isRejected (inventoryFormSubmit inventory initialData fd freshId) = true)
    ∧ (¬ (∃ item ∈ inventory, strToLower (strTrim item.sku) = strToLower (strTrim fd.sku)
          ∧ ∀ d, initialData = some d → item.id ≠ d.id) →
        isRejected (inventoryFormSubmit inventory initialData fd freshId) = false)
    ∧ isRejected (simpleInventoryFormSubmit fd freshId) = false := by
  refine ⟨?_, ?_, rfl⟩
  · intro hex
    have h : skuDuplicate inventory initialData fd.sku = true :=
      (skuDuplicate_iff inventory initialData fd.sku).mpr hex
    unfold inventoryFormSubmit
    rw [if_pos h]
    rfl
  · intro hnot
    have h : skuDuplicate inventory initialData fd.sku = false := by
      rcases Bool.eq_false_or_eq_true (skuDuplicate inventory initialData fd.sku) with htr | hf
      · exact absurd ((skuDuplicate_iff inventory initialData fd.sku).mp htr) hnot
      · exact hf
    unfold inventoryFormSubmit
    rw [if_neg (by simp [h])]
    cases initialData <;> rfl

/-- Witness for `inventoryForm_sku_uniqueness`: a new item whose SKU
`" abc"` duplicates the existing `"ABC"` is rejected inline by the full
form before any persistence action. -/
theorem inventoryForm_sku_uniqueness_witness :
    (∃ item ∈ ([{ id := "I1", sku := "ABC", name := "Mug" }] : List InventoryItem),
        strToLower (strTrim item.sku) = strToLower (strTrim " abc")
          ∧ ∀ d, (none : Option InventoryItem) = some d → item.id ≠ d.id)
    ∧ isRejected
        (inventoryFormSubmit [{ id := "I1", sku := "ABC", name := "Mug" }] none
          { name := "Mug 2", category := "Kitchen", sku := " abc" } "INV-7")
      = true := by
  have hex : ∃ item ∈ ([{ id := "I1", sku := "ABC", name := "Mug" }] : List InventoryItem),
      strToLower (strTrim item.sku) = strToLower (strTrim " abc")
        ∧ ∀ d, (none : Option InventoryItem) = some d → item.id ≠ d.id :=
    ⟨{ id := "I1", sku := "ABC", name := "Mug" }, by simp, by decide,
      fun d hd => by cases hd⟩
  refine ⟨hex, ?_⟩
  have h := (inventoryForm_sku_uniqueness [{ id := "I1", sku := "ABC", name := "Mug" }]
      none { name := "Mug 2", category := "Kitchen", sku := " abc" } "INV-7").1
  have hfd : ({ name := "Mug 2", category := "Kitchen", sku := " abc" } : InvFormData).sku
      = " abc" := rfl
  exact h (by rw [hfd]; exact hex)

/-- Counterexample to C9 as stated: with no authenticated session both
`getOrders` variants (and `getInventory`) return `ok []` — they succeed
with an empty list instead of failing with a `NotAuthenticated` error,
even when the remote table does contain rows. -/
theorem getOrders_no_session_counterexample :
    getOrdersMain true none [{ id := "O1", user_id := some "u1" }] none
      = Except.ok []
    ∧ getOrdersPart004 true none [{ id := "O1", user_id := some "u1" }] none
      = Except.ok []
    ∧ getInventoryMain true none [{ id := "I1", user_id := some "u1" }] none
      = Except.ok []
    ∧ getInventoryPart004 true none [{ id := "I1", user_id := some "u1" }] none
      = Except.ok [] :=
  ⟨rfl, rfl, rfl, rfl⟩

/-- C9 (amended): with no session `getOrders`/`getInventory` succeed with
an empty list (no `NotAuthenticated` failure exists in the code); with a
session only rows whose `user_id` equals the caller's id are returned; in
the `part_004` variant a remote error whose message mentions `user_id`
(the missing ownership column) is rethrown as the distinct
`SCHEMA_MISSING_USER_ID` error while other remote errors propagate
verbatim; the main `dbService.ts` variant rethrows every remote error
verbatim, with no schema-mismatch distinction. -/
theorem gateway_auth_scope_schema (table : List Order) (inv : List InventoryItem)
    (uid msg : String) :
    getOrdersMain true none table none = Except.ok []
    ∧ getOrdersPart004 true none table none = Except.ok []
    ∧ getInventoryMain true none inv none = Except.ok []
    ∧ getOrdersPart004 true (some uid) table none
        = Except.ok (table.filter (fun o => o.user_id == some uid))
    ∧ (∀ rows, getOrdersPart004 true (some uid) table none = Except.ok rows →
        ∀ o ∈ rows, o.user_id = some uid)
    ∧ (∀ rows, getOrdersMain true (some uid) table none = Except.ok rows →
        ∀ o ∈ rows, o.user_id = some uid)
    ∧ (strContains msg "user_id" = true →
        getOrdersPart004 true (some uid) table (some msg)
            = Except.error "SCHEMA_MISSING_USER_ID"
        ∧ getInventoryPart004 true (some uid) inv (some msg)
            = Except.error "SCHEMA_MISSING_USER_ID")
    ∧ (strContains msg "user_id" = false →
        getOrdersPart004 true (some uid) table (some msg) = Except.error msg)
    ∧ getOrdersMain true (some uid) table (some msg) = Except.error msg
    ∧ getInventoryMain true (some uid) inv none
        = Except.ok (inv.filter (fun i => i.user_id == some uid)) := by
  refine ⟨rfl, rfl, rfl, rfl, ?_, ?_, ?_, ?_, rfl, rfl⟩
  · intro rows hrows o ho
    have : rows = table.filter (fun o => o.user_id == some uid) := by
      cases hrows
      rfl
    rw [this] at ho
    have := (List.mem_filter.mp ho).2
    exact eq_of_beq this
  · intro rows hrows o ho
    have : rows = table.filter (fun o => o.user_id == some uid) := by
      cases hrows
      rfl
    rw [this] at ho
    have := (List.mem_filter.mp ho).2
    exact eq_of_beq this
  · intro hmsg
    constructor <;> (simp only [getOrdersPart004, getInventoryPart004]; rw [hmsg]; rfl)
  · intro hmsg
    simp only [getOrdersPart004]
    rw [hmsg]
    rfl

/-- Witness for `gateway_auth_scope_schema`: a remote error mentioning the
missing `user_id` column surfaces as `SCHEMA_MISSING_USER_ID`, and with a
session only the caller's row comes back. -/
theorem gateway_auth_scope_schema_witness :
    strContains "column osot_orders.user_id does not exist" "user_id" = true
    ∧ getOrdersPart004 true (some "u1")
        [{ id := "O1", user_id := some "u1" }, { id := "O2", user_id := some "u2" }]
        (some "column osot_orders.user_id does not exist")
      = Except.error "SCHEMA_MISSING_USER_ID"
    ∧ (∀ o ∈ ([{ id := "O1", user_id := some "u1" },
          { id := "O2", user_id := some "u2" }] : List Order).filter
            (fun o => o.user_id == some "u1"),
        o.user_id = some "u1") := by
  refine ⟨by decide, ?_, ?_⟩
  · exact ((gateway_auth_scope_schema
        [{ id := "O1", user_id := some "u1" }, { id := "O2", user_id := some "u2" }]
        [] "u1" "column osot_orders.user_id does not exist").2.2.2.2.2.2.1
      (by decide)).1
  · exact (gateway_auth_scope_schema
        [{ id := "O1", user_id := some "u1" }, { id := "O2", user_id := some "u2" }]
        [] "u1" "column osot_orders.user_id does not exist").2.2.2.2.1 _ rfl

/-! Helper lemmas for the monthly-trend robustness analysis. -/

theorem nadd_isSome {a b : JsNum} (ha : a.isSome = true) (hb : b.isSome = true) :
    (nadd a b).isSome = true := by
  cases a <;> cases b <;> simp_all [nadd]

theorem nsub_isSome {a b : JsNum} (ha : a.isSome = true) (hb : b.isSome = true) :
    (nsub a b).isSome = true := by
  cases a <;> cases b <;> simp_all [nsub]

theorem marginOf_some_isSome (n r : ℚ) : (marginOf (some n) (some r)).isSome = true := by
  by_cases h : (0 : ℚ) < r
  · have h1 : jsGtZero (some r) = true := by simp [jsGtZero, h]
    rw [marginOf, if_pos h1]
    have h2 : r ≠ 0 := ne_of_gt h
    simp [ndiv, nmul, h2]
  · have h1 : jsGtZero (some r) = false := by simp [jsGtZero, h]
    rw [marginOf, if_neg (by simp [h1])]
    rfl

theorem mem_insertBucket {x b : MonthBucket} :
    ∀ {l : List MonthBucket}, x ∈ insertBucket b l → x = b ∨ x ∈ l := by
  intro l
  induction l with
  | nil => intro h; simpa [insertBucket] using h
  | cons c t ih =>
    intro h
    rw [insertBucket] at h
    by_cases hlt : b.month < c.month
    · rw [if_pos hlt] at h
      rcases List.mem_cons.mp h with h1 | h2
      · exact Or.inl h1
      · exact Or.inr h2
    · rw [if_neg hlt] at h
      rcases List.mem_cons.mp h with h1 | h2
      · exact Or.inr (by simp [h1])
      · rcases ih h2 with h3 | h4
        · exact Or.inl h3
        · exact Or.inr (List.mem_cons_of_mem _ h4)

theorem mem_sortBuckets {x : MonthBucket} :
    ∀ {l : List MonthBucket}, x ∈ sortBuckets l → x ∈ l := by
  intro l
  induction l with
  | nil => intro h; simp [sortBuckets] at h
  | cons b t ih =>
    intro h
    rw [sortBuckets] at h
    rcases mem_insertBucket h with h1 | h2
    · simp [h1]
    · exact List.mem_cons_of_mem _ (ih h2)

/-- A well-formed bucket: both accumulated values are finite. -/
def FiniteBucket (b : MonthBucket) : Prop :=
  b.revenue.isSome = true ∧ b.profit.isSome = true

theorem bucketUpsert_inv {acc : List MonthBucket} {m : String}
    (hacc : ∀ b ∈ acc, FiniteBucket b) :
    ∀ b ∈ bucketUpsert acc m, FiniteBucket b := by
  intro b hb
  unfold bucketUpsert at hb
  by_cases hany : acc.any (fun b => b.month == m)
  · rw [if_pos hany] at hb
    exact hacc b hb
  · rw [if_neg hany] at hb
    rcases List.mem_append.mp hb with h1 | h2
    · exact hacc b h1
    · have : b = { month := m, revenue := some 0, profit := some 0 } := by
        simpa using h2
      rw [this]
      exact ⟨rfl, rfl⟩

theorem monthStep_inv {acc : List MonthBucket} {o : Order}
    (hval : (jsToNumber o.settledAmount).isSome = true
      ∧ (jsToNumber o.profit).isSome = true
      ∧ (jsToNumber o.lossAmount).isSome = true)
    (hacc : ∀ b ∈ acc, FiniteBucket b) :
    ∀ b ∈ monthStep acc o, FiniteBucket b := by
  have hup := bucketUpsert_inv (m := strTake o.date 7) hacc
  intro b hb
  unfold monthStep at hb
  by_cases hs : (o.status == "Settled") = true
  · rw [if_pos hs] at hb
    unfold bucketUpdate at hb
    rcases List.mem_map.mp hb with ⟨c, hc, hbc⟩
    have hPc := hup c hc
    by_cases hcm : (c.month == strTake o.date 7) = true
    · rw [if_pos hcm] at hbc
      rw [← hbc]
      exact ⟨nadd_isSome hPc.1 hval.1, nadd_isSome hPc.2 hval.2.1⟩
    · rw [if_neg hcm] at hbc
      rw [← hbc]
      exact hPc
  · rw [if_neg hs] at hb
    by_cases hr : (o.status == "Returned" && o.claimStatus != some "Approved") = true
    · rw [if_pos hr] at hb
      unfold bucketUpdate at hb
      rcases List.mem_map.mp hb with ⟨c, hc, hbc⟩
      have hPc := hup c hc
      by_cases hcm : (c.month == strTake o.date 7) = true
      · rw [if_pos hcm] at hbc
        rw [← hbc]
        exact ⟨hPc.1, nsub_isSome hPc.2 hval.2.2⟩
      · rw [if_neg hcm] at hbc
        rw [← hbc]
        exact hPc
    · rw [if_neg hr] at hb
      exact hup b hb

theorem foldl_monthStep_inv :
    ∀ (os : List Order) (acc : List MonthBucket),
      (∀ o ∈ os, (jsToNumber o.settledAmount).isSome = true
        ∧ (jsToNumber o.profit).isSome = true
        ∧ (jsToNumber o.lossAmount).isSome = true) →
      (∀ b ∈ acc, FiniteBucket b) →
      ∀ b ∈ os.foldl monthStep acc, FiniteBucket b := by
  intro os
  induction os with
  | nil => intro acc _ hacc; simpa using hacc
  | cons o t ih =>
    intro acc hos hacc
    rw [List.foldl_cons]
    exact ih _ (fun x hx => hos x (List.mem_cons_of_mem _ hx))
      (monthStep_inv (hos o (List.mem_cons_self _ _)) hacc)

/-- Counterexample to C3 as stated: a settled order whose `settledAmount`
is the non-numeric string `"abc"` produces a monthly-trend bucket whose
revenue is `NaN` (`none`) — `monthlyData` uses plain `Number(x)` with no
`|| 0` fallback — so not every per-month revenue value is finite. -/
theorem monthlyData_nan_counterexample :
    (monthlyData
        [{ id := "M", date := "2024-01-15", status := "Settled",
           settledAmount := .str "abc", profit := .num 5 }]).map (fun b => b.month)
      = ["2024-01"]
    ∧ (monthlyData
        [{ id := "M", date := "2024-01-15", status := "Settled",
           settledAmount := .str "abc", profit := .num 5 }]).map (fun b => b.revenue)
      = [none]
    ∧ ((monthlyData
        [{ id := "M", date := "2024-01-15", status := "Settled",
           settledAmount := .str "abc", profit := .num 5 }]).all
          (fun b => b.revenue.isSome)) = false := by
  refine ⟨?_, ?_, ?_⟩ <;> rfl

/-- C3 (amended): the dashboard totals (revenue, net profit, margin) of
both `App` variants coerce every numeric field through `Number(x) || 0`
and are therefore always finite, never `NaN`, with invalid values counted
as `0`; the monthly-trend buckets, however, use plain `Number(x)`, so
they are finite only when every order's `settledAmount`, `profit` and
`lossAmount` actually coerce to numbers (`null` still counts as `0`
there, but `undefined` or a non-numeric string poisons the bucket —
see the counterexample). -/
theorem aggregation_numeric_robustness (orders : List Order) :
    (statsV1 orders).totalRevenue.isSome = true
    ∧ (statsV1 orders).totalProfit.isSome = true
    ∧ (statsV1 orders).avgMargin.isSome = true
    ∧ (statsV2 orders).totalProfit.isSome = true
    ∧ (statsV2 orders).avgMargin.isSome = true
    ∧ ((∀ o ∈ orders, (jsToNumber o.settledAmount).isSome = true
          ∧ (jsToNumber o.profit).isSome = true
          ∧ (jsToNumber o.lossAmount).isSome = true) →
        ∀ b ∈ monthlyData orders, b.revenue.isSome = true ∧ b.profit.isSome = true) := by
  have hnet1 : nsub (totalSettledProfit orders) (activeReturnLossesV1 orders)
      = some ((((settledOrders orders).map (fun o => numOr0 o.profit)).sum)
          - specActiveReturnLoss orders) := by
    rw [totalSettledProfit_eq, activeReturnLossesV1_eq]
    rfl
  have hnet2 : nsub (totalSettledProfit orders) (activeReturnLossesV2 orders)
      = some ((((settledOrders orders).map (fun o => numOr0 o.profit)).sum)
          - returnLossNoTypeFilter orders) := by
    rw [totalSettledProfit_eq, activeReturnLossesV2_eq]
    rfl
  refine ⟨?_, ?_, ?_, ?_, ?_, ?_⟩
  · simp only [statsV1]
    rw [revenueOf_eq]
    rfl
  · simp only [statsV1]
    rw [hnet1]
    rfl
  · simp only [statsV1]
    rw [hnet1, revenueOf_eq]
    exact marginOf_some_isSome _ _
  · simp only [statsV2]
    rw [hnet2]
    rfl
  · simp only [statsV2]
    rw [hnet2, revenueOf_eq]
    exact marginOf_some_isSome _ _
  · intro hval b hb
    exact foldl_monthStep_inv orders [] hval (by simp) b (mem_sortBuckets hb)

/-- The two settled orders of the spec's Scenario E (dated `2024-01-15`
and `2024-02-03`), used as the concrete input of the robustness witness. -/
def scenarioEOrders : List Order :=
  [{ id := "E1", date := "2024-01-15", status := "Settled",
     settledAmount := .num 100, profit := .num 30, lossAmount := .num 0 },
   { id := "E2", date := "2024-02-03", status := "Settled",
     settledAmount := .num 200, profit := .num 70, lossAmount := .num 0 }]

/-- Witness for `aggregation_numeric_robustness`: the two settled orders
of the spec's Scenario E have genuinely numeric fields, and every
monthly bucket built from them is finite. -/
theorem aggregation_numeric_robustness_witness :
    (∀ o ∈ scenarioEOrders,
        (jsToNumber o.settledAmount).isSome = true
          ∧ (jsToNumber o.profit).isSome = true
          ∧ (jsToNumber o.lossAmount).isSome = true)
    ∧ ∀ b ∈ monthlyData scenarioEOrders,
        b.revenue.isSome = true ∧ b.profit.isSome = true := by
  have hval : ∀ o ∈ scenarioEOrders,
      (jsToNumber o.settledAmount).isSome = true
        ∧ (jsToNumber o.profit).isSome = true
        ∧ (jsToNumber o.lossAmount).isSome = true := by decide
  exact ⟨hval, (aggregation_numeric_robustness scenarioEOrders).2.2.2.2.2 hval⟩

end OST
